import Mathlib

/-!
Verification of the MessagingAPI wrapper library.

This file gives a shallow embedding of the two source modules:

* `src/messaging_api_wrapper/whatsapp.py` — class `WhatsApp` with
  `_create_data`, `_send_request` and `send_message`;
* `src/email.py` — class `Email` with `init_env`, `_get_template`,
  `_validate_email` and `send`.

Python exceptions are modelled with `Except`: a value `.error e` means the
Python code raised exception `e` to its caller, `.ok v` means it returned
normally with `v`.  JSON response bodies are modelled by `JsonVal`
(numbers restricted to integers, which covers every body in scope), and the
dynamic `dict`/`list`/`str` operations used by `send_message`
(`in`, `[...]`, `.get`) are embedded with their Python semantics, including
the runtime `TypeError` / `KeyError` / `AttributeError` behaviour on
values of the wrong shape.
-/

/-- JSON values, as produced by `response.json()`. -/
inductive JsonVal where
  | null : JsonVal
  | bool : Bool → JsonVal
  | num : Int → JsonVal
  | str : String → JsonVal
  | arr : List JsonVal → JsonVal
  | obj : List (String × JsonVal) → JsonVal

/-- Python exception kinds raised by the code under verification.
`valueError` is the only kind the WhatsApp `except` clause can catch
(together with `requests.RequestException`, modelled separately). -/
inductive PyErr where
  | valueError : String → PyErr
  | typeError : String → PyErr
  | keyError : String → PyErr
  | indexError : String → PyErr
  | attributeError : String → PyErr
deriving DecidableEq

/-- Association-list lookup for a JSON object: the value bound to key `k`,
if any.  The *last* binding wins, matching Python's semantics for
duplicate keys in dict literals and in `json.loads` bodies. -/
def pyFind (fs : List (String × JsonVal)) (k : String) : Option JsonVal :=
  (fs.reverse.find? (fun p => p.1 = k)).map (fun p => p.2)

/-- Contiguous-sublist (Python `in` on strings) test on character lists. -/
def containsSub (needle : List Char) : List Char → Bool
  | [] => needle.isEmpty
  | h :: t => needle.isPrefixOf (h :: t) || containsSub needle t

/-- Python equality of a JSON value with a string literal (`v == "s"`):
true exactly when `v` is that string. -/
def isStrEq (v : JsonVal) (s : String) : Bool :=
  match v with
  | .str t => t = s
  | _ => false

/-- Python truthiness of a JSON value. -/
def pyTruthy : JsonVal → Bool
  | .null => false
  | .bool b => b
  | .num n => n != 0
  | .str s => s != ""
  | .arr xs => !xs.isEmpty
  | .obj fs => !fs.isEmpty

/-- Python `key in v` for a string key: key membership on dicts, element
equality on lists, substring on strings, `TypeError` otherwise. -/
def pyContains (v : JsonVal) (key : String) : Except PyErr Bool :=
  match v with
  | .obj fs => .ok (pyFind fs key).isSome
  | .arr xs => .ok (xs.any (fun x => isStrEq x key))
  | .str s => .ok (containsSub key.toList s.toList)
  | _ => .error (.typeError "argument of type is not iterable")

/-- Python `v[key]` for a string key: dict lookup (`KeyError` on a missing
key), `TypeError` on lists/strings (string indices), otherwise not
subscriptable. -/
def pySubscript (v : JsonVal) (key : String) : Except PyErr JsonVal :=
  match v with
  | .obj fs =>
      match pyFind fs key with
      | some x => .ok x
      | none => .error (.keyError key)
  | .arr _ => .error (.typeError "list indices must be integers or slices, not str")
  | .str _ => .error (.typeError "string indices must be integers")
  | _ => .error (.typeError "object is not subscriptable")

/-- Python `v[0]`: head of a list (`IndexError` when empty), first character
of a string, `KeyError` on a dict (JSON object keys are strings, never the
int `0`), `TypeError` otherwise. -/
def pyIndexZero (v : JsonVal) : Except PyErr JsonVal :=
  match v with
  | .arr [] => .error (.indexError "list index out of range")
  | .arr (x :: _) => .ok x
  | .str s =>
      match s.toList with
      | [] => .error (.indexError "string index out of range")
      | c :: _ => .ok (.str (String.singleton c))
  | .obj _ => .error (.keyError "0")
  | _ => .error (.typeError "object is not subscriptable")

/-- Python `v.get(key, default)`: only dicts have `.get`; anything else
raises `AttributeError`. -/
def pyGet (v : JsonVal) (key : String) (default : JsonVal) : Except PyErr JsonVal :=
  match v with
  | .obj fs => .ok ((pyFind fs key).getD default)
  | _ => .error (.attributeError "object has no attribute get")

/-- Python `str.lstrip('0')`: drop every leading `'0'` character. -/
def pyLstripZeros (s : String) : String :=
  ⟨s.toList.dropWhile (fun c => c = '0')⟩

/-- Python `s.startswith(pre)`. -/
def pyStartsWith (s pre : String) : Bool :=
  pre.toList.isPrefixOf s.toList

/-! ## The `WhatsApp` class (`src/messaging_api_wrapper/whatsapp.py`) -/

/-- Constructor state of `WhatsApp.__init__`. -/
structure WhatsAppCfg where
  url : String
  token : String
  wapaId : String
  phone_number_pfx : String
deriving DecidableEq, Repr

/-- The exact message of the `ValueError` raised by `_create_data`. -/
def componentsErrMsg : String :=
  "Each component in 'template_params' must be a JSON object."

/-- Python `isinstance(comp, dict)` on a JSON value. -/
def isDict : JsonVal → Bool
  | .obj _ => true
  | _ => false

/-- `WhatsApp._create_data`.  `template_params` is the caller's
`components` argument (`none` models Python `None`).  The first statement
normalises a falsy value to `[]`; the `all(isinstance(comp, dict) ...)`
check raises `ValueError` when some element is not a dict; otherwise the
payload dict literal is returned. -/
def _create_data (w : WhatsAppCfg) (to_phone template_name : String)
    (template_params : Option (List JsonVal))
    (language_code data_type recipient_type : String) : Except PyErr JsonVal :=
  let components : List JsonVal :=
    match template_params with
    | none => []
    | some l => if l.isEmpty then [] else l
  if components.all isDict then
    .ok (.obj
      [("messaging_product", .str "whatsapp"),
       ("wabaId", .str w.wapaId),
       ("recipient_type", .str recipient_type),
       ("to", .str (if pyStartsWith to_phone "+" then to_phone
                    else w.phone_number_pfx ++ to_phone)),
       ("type", .str data_type),
       (data_type, .obj
         [("name", .str template_name),
          ("language", .obj [("code", .str language_code)]),
          ("components", .arr components)])])
  else
    .error (.valueError componentsErrMsg)

/-- The payload `send_message` builds: `_create_data` applied to the
phone number with leading zeros stripped (`str(recipient_phone).lstrip('0')`)
and the default `recipient_type="individual"`. -/
def sentPayload (w : WhatsAppCfg) (recipient_phone template_name : String)
    (components : Option (List JsonVal))
    (language_code data_type : String) : Except PyErr JsonVal :=
  _create_data w (pyLstripZeros recipient_phone) template_name components
    language_code data_type "individual"

/-- Outcome of `_send_request` followed by `response.json()`, from the
transport collaborator's point of view:
* `response code body` — an HTTP response arrived and its body parsed;
* `badJson code errText` — a response arrived but `.json()` raised
  (`requests` raises a `JSONDecodeError`, a subclass of both
  `RequestException` and `ValueError`);
* `transportError errText` — `requests.post` raised a
  `requests.RequestException` (connection error, timeout, ...). -/
inductive HttpOutcome where
  | response : Nat → JsonVal → HttpOutcome
  | badJson : Nat → String → HttpOutcome
  | transportError : String → HttpOutcome

/-- Result dictionary returned by `send_message`.  `request_id` and
`message_status` are `none` when the corresponding key is absent from the
returned dict; a present-but-`None` `id` is `some JsonVal.null`. -/
structure WaResult where
  status : Bool
  message : JsonVal
  request_id : Option JsonVal
  message_status : Option String

/-- Fixed message of the 200-without-details branch of `send_message`. -/
def noDetailsMsg : String := "Message sent, but no message details found."

/-- Lines 128–153 of `whatsapp.py`: interpretation of a parsed HTTP
response inside the `try` block of `send_message`. -/
def handleResponse (code : Nat) (body : JsonVal)
    (success_message failed_message : String) : Except PyErr WaResult :=
  if code = 200 then
    match pyContains body "messages" with
    | .error e => .error e
    | .ok has =>
      if has then
        match pySubscript body "messages" with
        | .error e => .error e
        | .ok msgs =>
          if pyTruthy msgs then
            match pyIndexZero msgs with
            | .error e => .error e
            | .ok first =>
              match pyGet first "id" .null with
              | .error e => .error e
              | .ok rid =>
                match pyGet first "message_status" .null with
                | .error e => .error e
                | .ok ms =>
                  .ok ⟨true, .str success_message, some rid,
                    some (if isStrEq ms "accepted" then "sent" else "failed")⟩
          else
            .ok ⟨true, .str noDetailsMsg, none, none⟩
      else
        .ok ⟨true, .str noDetailsMsg, none, none⟩
  else
    match pyGet body "error" (.obj []) with
    | .error e => .error e
    | .ok errv =>
      match pyGet errv "message" (.str failed_message) with
      | .error e => .error e
      | .ok em => .ok ⟨false, em, none, none⟩

/-- What the `try` block of `send_message` does, given the transport
outcome: a `requests.RequestException` aborts it with that exception;
otherwise the response is interpreted by `handleResponse`, whose Python
errors abort it.  `.inl` marks a `RequestException` (or the
`JSONDecodeError`, which is also a `ValueError`), `.inr` any other
Python exception. -/
def tryBody (code_body : HttpOutcome) (success_message failed_message : String) :
    Except (Sum String PyErr) WaResult :=
  match code_body with
  | .transportError m => .error (.inl m)
  | .badJson _ m => .error (.inl m)
  | .response code body =>
      match handleResponse code body success_message failed_message with
      | .error e => .error (.inr e)
      | .ok r => .ok r

/-- `WhatsApp.send_message`.  The phone number is `lstrip`ped of zeros and
the payload built by `_create_data` *outside* the `try` block, so a
`ValueError` raised there propagates.  Inside the `try`, a
`requests.RequestException` or `ValueError` is caught and converted to
`{"status": False, "message": str(e)}`; any other exception propagates. -/
def send_message (w : WhatsAppCfg) (recipient_phone template_name : String)
    (data_type : String) (components : Option (List JsonVal))
    (language_code success_message failed_message : String)
    (http : HttpOutcome) : Except PyErr WaResult :=
  match sentPayload w recipient_phone template_name components language_code data_type with
  | .error e => .error e
  | .ok _ =>
      match tryBody http success_message failed_message with
      | .ok r => .ok r
      | .error (.inl m) => .ok ⟨false, .str m, none, none⟩
      | .error (.inr (.valueError m)) => .ok ⟨false, .str m, none, none⟩
      | .error (.inr e) => .error e

/-! ## The `Email` class (`src/email.py`) -/

/-- Exceptions an `Email.send` call can raise:
* `emailException msg` — the library's own `EmailException` with that
  message (the code uses this single class for every check it performs);
* `pyError msg` — a foreign Python runtime exception raised while building
  the MIME message (CPython's `MIMEText(None, 'plain')` raises an
  `AttributeError` because `None` has no `.encode`);
* `smtpError e` — an `smtplib` exception raised during delivery and
  propagated to the caller unwrapped. -/
inductive EmailError where
  | emailException : String → EmailError
  | pyError : String → EmailError
  | smtpError : String → EmailError
deriving DecidableEq, Repr

/-- Exact message of the empty-recipient `EmailException` (line 100). -/
def noRecipientMsg : String := "Recipient email(s) must be provided."

/-- Exact message of the invalid-address `EmailException` (line 84): the
f-string interpolates nothing, so the message is this constant. -/
def invalidEmailMsg : String :=
  "Invalid email address. Please provide a valid email address."

/-- Exact message of the uninitialized-environment `EmailException`
(line 69). -/
def envNotInitMsg : String :=
  "Environment not initialized. Call Email.init_env() first."

/-- Backtracking matcher for the regex piece `[^@]+` followed by a
continuation: consume at least one non-`'@'` character, then try the
continuation after each possible consumption point. -/
def plusNonAt (p : List Char → Bool) : List Char → Bool
  | [] => false
  | c :: cs => c != '@' && (p cs || plusNonAt p cs)

/-- `re.match(r"[^@]+@[^@]+\.[^@]+", email)` as a Boolean: an anchored
prefix match of one-or-more non-`'@'`, `'@'`, one-or-more non-`'@'`,
`'.'`, one-or-more non-`'@'`. -/
def reMatchEmail (s : String) : Bool :=
  plusNonAt (fun r1 =>
    match r1 with
    | '@' :: r2 =>
        plusNonAt (fun r3 =>
          match r3 with
          | '.' :: r4 => plusNonAt (fun _ => true) r4
          | _ => false) r2
    | _ => false) s.toList

/-- `Email._validate_email`: raise `EmailException` when the regex does
not match. -/
def _validate_email (email : String) : Except EmailError Unit :=
  if reMatchEmail email then .ok () else .error (.emailException invalidEmailMsg)

/-- The template-renderer collaborator (Jinja2 environment): a total
rendering function from template name and context to rendered text. -/
def Renderer : Type := String → List (String × String) → String

/-- Constructor state of `Email.__init__`: `env` is `some r` when a
`templates_dir` was given (Jinja2 `Environment` built), else `None`. -/
structure EmailAccount where
  from_email : String
  password : String
  host : String
  port : Nat
  env : Option Renderer

/-- `Email.init_env`: (re)initialize the Jinja2 environment. -/
def init_env (acc : EmailAccount) (r : Renderer) : EmailAccount :=
  { acc with env := some r }

/-- `Email._get_template`: raises `EmailException` when no environment is
configured, otherwise renders the template against the context
(`context or {}`). -/
def _get_template (acc : EmailAccount) (template : String)
    (context : List (String × String)) : Except EmailError String :=
  match acc.env with
  | none => .error (.emailException envNotInitMsg)
  | some r => .ok (r template context)

/-- The assembled MIME message: `From` header, comma-joined `To` header,
and the attached parts as (subtype, content) pairs — `("html", rendered)`
or `("plain", body)`. -/
structure MimeMessage where
  from_addr : String
  to_addr : String
  parts : List (String × String)
deriving DecidableEq, Repr

/-- Lines 99–115 of `email.py`: the part of `Email.send` before delivery.
Checks the recipient list is non-empty, validates every recipient in
order (raising at the first failure), then builds the MIME message with
either the rendered template (`html`) or the plain body. -/
def buildMessage (acc : EmailAccount) (to_email : List String)
    (body : Option String) (template : Option String)
    (context : List (String × String)) : Except EmailError MimeMessage :=
  if to_email.isEmpty then
    .error (.emailException noRecipientMsg)
  else
    match to_email.find? (fun e => !reMatchEmail e) with
    | some _ => .error (.emailException invalidEmailMsg)
    | none =>
        match template with
        | some t =>
            match _get_template acc t context with
            | .error e => .error e
            | .ok content =>
                .ok ⟨acc.from_email, String.intercalate ", " to_email,
                     [("html", content)]⟩
        | none =>
            match body with
            | none => .error (.pyError "NoneType object has no attribute encode")
            | some b =>
                .ok ⟨acc.from_email, String.intercalate ", " to_email,
                     [("plain", b)]⟩

/-- The five delivery steps of lines 117–121 of `email.py`. -/
inductive SmtpAction where
  | connect : SmtpAction
  | starttls : SmtpAction
  | login : SmtpAction
  | sendMsg : SmtpAction
  | quit : SmtpAction
deriving DecidableEq, Repr

/-- The mail-transport collaborator: for each of the five calls, whether
it returns normally or raises (with the raised exception's text). -/
structure SmtpBehavior where
  connectR : Except String Unit
  starttlsR : Except String Unit
  loginR : Except String Unit
  sendR : Except String Unit
  quitR : Except String Unit

/-- Lines 117–121 of `email.py`, run straight-line with no `try`/`finally`
and no context manager: each call either succeeds (and is recorded in the
trace) or raises, aborting the remaining calls.  Returns the outcome and
the trace of transport calls that were performed. -/
def deliver (b : SmtpBehavior) : Except String Unit × List SmtpAction :=
  match b.connectR with
  | .error e => (.error e, [])
  | .ok _ =>
    match b.starttlsR with
    | .error e => (.error e, [.connect])
    | .ok _ =>
      match b.loginR with
      | .error e => (.error e, [.connect, .starttls])
      | .ok _ =>
        match b.sendR with
        | .error e => (.error e, [.connect, .starttls, .login])
        | .ok _ =>
          match b.quitR with
          | .error e => (.error e, [.connect, .starttls, .login, .sendMsg])
          | .ok _ => (.ok (), [.connect, .starttls, .login, .sendMsg, .quit])

/-- `Email.send`: validation and message assembly, then delivery.  The
result carries the assembled message on success; the second component is
the trace of transport calls performed (empty when `send` raised before
reaching the transport). -/
def send (acc : EmailAccount) (to_email : List String) (body : Option String)
    (template : Option String) (context : List (String × String))
    (smtp : SmtpBehavior) : Except EmailError MimeMessage × List SmtpAction :=
  match buildMessage acc to_email body template context with
  | .error e => (.error e, [])
  | .ok m =>
      match deliver smtp with
      | (.ok _, tr) => (.ok m, tr)
      | (.error e, tr) => (.error (.smtpError e), tr)

/-! ## Concrete instances used by witnesses and counterexamples -/

/-- The phone-normalisation rule as the spec words it, for comparison with
the payload `_create_data` builds: strip leading zeros; then if the result
does not already start with `'+'`, prepend the configured prefix. -/
def specNormalizedPhone (pfx p : String) : String :=
  let stripped : String := ⟨p.toList.dropWhile (fun c => c = '0')⟩
  if pyStartsWith stripped "+" then stripped else pfx ++ stripped

/-- A concrete `WhatsApp` configuration. -/
def waEx : WhatsAppCfg :=
  ⟨"https://graph.example/v17.0/12345/messages", "token123", "waba-1", "+91"⟩

/-- A concrete `Email` configuration with no templates directory. -/
def accEx : EmailAccount :=
  ⟨"me@example.com", "app-password", "smtp.gmail.com", 587, none⟩

/-- An SMTP transport on which all five calls succeed. -/
def smtpAllOk : SmtpBehavior := ⟨.ok (), .ok (), .ok (), .ok (), .ok ()⟩

/-- An SMTP transport on which `login` raises. -/
def smtpLoginFail : SmtpBehavior :=
  ⟨.ok (), .ok (), .error "SMTPAuthenticationError: 535 bad credentials", .ok (), .ok ()⟩

/-! ## Helper lemmas -/

/-- `pyContains` never raises a `ValueError`. -/
theorem pyContains_no_vE (v : JsonVal) (k m : String) :
    pyContains v k ≠ .error (.valueError m) := by
  cases v <;> simp [pyContains]

/-- `pySubscript` never raises a `ValueError`. -/
theorem pySubscript_no_vE (v : JsonVal) (k m : String) :
    pySubscript v k ≠ .error (.valueError m) := by
  unfold pySubscript
  split <;> (try split) <;> simp

/-- `pyIndexZero` never raises a `ValueError`. -/
theorem pyIndexZero_no_vE (v : JsonVal) (m : String) :
    pyIndexZero v ≠ .error (.valueError m) := by
  unfold pyIndexZero
  split <;> (try split) <;> simp

/-- `pyGet` never raises a `ValueError`. -/
theorem pyGet_no_vE (v : JsonVal) (k : String) (d : JsonVal) (m : String) :
    pyGet v k d ≠ .error (.valueError m) := by
  cases v <;> simp [pyGet]

/-- No operation in the response-interpretation code raises a `ValueError`
(so the `except` clause never fires on the interpretation path). -/
theorem handleResponse_no_vE (code : Nat) (body : JsonVal) (s f m : String) :
    handleResponse code body s f ≠ .error (.valueError m) := by
  intro h
  unfold handleResponse at h
  split at h
  · split at h
    · rename_i e heq
      injection h with h2
      subst h2
      exact pyContains_no_vE _ _ _ heq
    · split at h
      · split at h
        · rename_i e heq
          injection h with h2
          subst h2
          exact pySubscript_no_vE _ _ _ heq
        · split at h
          · split at h
            · rename_i e heq
              injection h with h2
              subst h2
              exact pyIndexZero_no_vE _ _ heq
            · split at h
              · rename_i e heq
                injection h with h2
                subst h2
                exact pyGet_no_vE _ _ _ _ heq
              · split at h
                · rename_i e heq
                  injection h with h2
                  subst h2
                  exact pyGet_no_vE _ _ _ _ heq
                · exact Except.noConfusion h
          · exact Except.noConfusion h
      · exact Except.noConfusion h
  · split at h
    · rename_i e heq
      injection h with h2
      subst h2
      exact pyGet_no_vE _ _ _ _ heq
    · split at h
      · rename_i e heq
        injection h with h2
        subst h2
        exact pyGet_no_vE _ _ _ _ heq
      · exact Except.noConfusion h

/-- Every result `handleResponse` returns normally carries
`status = true` exactly when the HTTP status code was 200. -/
theorem handleResponse_ok_status (code : Nat) (body : JsonVal) (s f : String)
    (r : WaResult) (h : handleResponse code body s f = .ok r) :
    r.status = true ↔ code = 200 := by
  unfold handleResponse at h
  split at h
  · rename_i hc
    simp only [hc, iff_true]
    iterate 8 (all_goals try split at h)
    all_goals first
      | exact Except.noConfusion h
      | (injection h with h2; subst h2; rfl)
  · rename_i hc
    simp only [hc, iff_false]
    iterate 3 (all_goals try split at h)
    all_goals first
      | exact Except.noConfusion h
      | (injection h with h2; subst h2; simp)

/-- Lookup in the empty JSON object finds nothing. -/
theorem pyFind_nil (k : String) : pyFind [] k = none := rfl

/-! ## Claim C1 -/

/-- C1 counterexample: an exception arising during request construction is
*not* caught inside `send_message`.  With `components = ["not-an-object"]`
and a transport that would have delivered a perfect 200 response,
`send_message` raises the `ValueError` from `_create_data` to its caller
instead of returning a `{status: false, ...}` result object. -/
theorem send_message_construction_error_propagates_cex :
    send_message waEx "0987654321" "greeting" "template" (some [.str "not-an-object"])
      "en" "Message sent successfully." "Failed to send message."
      (.response 200 (.obj [("messages",
        .arr [.obj [("id", .str "wamid.abc"), ("message_status", .str "accepted")]])])) =
      .error (.valueError componentsErrMsg) := by rfl

/-- C1 (amended): for every call whose payload construction succeeds, an
exception during transmission (`requests.RequestException`) or during body
parsing (`JSONDecodeError`) is caught inside `send_message` and converted
into the returned result `{status: false, message: <exception text>}` —
`send_message` never raises for a transport-level failure.  Exceptions
raised while constructing the request (`_create_data`) occur outside the
`try` block and propagate. -/
theorem send_message_transport_errors_converted (w : WhatsAppCfg)
    (p tn dt : String) (comps : Option (List JsonVal))
    (lc sm fm em : String) (j : JsonVal)
    (hpay : sentPayload w p tn comps lc dt = .ok j) :
    (send_message w p tn dt comps lc sm fm (.transportError em) =
      .ok ⟨false, .str em, none, none⟩) ∧
    (∀ code, send_message w p tn dt comps lc sm fm (.badJson code em) =
      .ok ⟨false, .str em, none, none⟩) := by
  constructor
  · simp [send_message, hpay, tryBody]
  · intro code
    simp [send_message, hpay, tryBody]

/-- C1 witness: a connection timeout is converted to a failure result. -/
theorem send_message_transport_errors_converted_witness :
    send_message waEx "5" "t" "template" none "en" "ok" "fail"
      (.transportError "Connection timed out") =
      .ok ⟨false, .str "Connection timed out", none, none⟩ :=
  (send_message_transport_errors_converted waEx "5" "t" "template" none "en"
    "ok" "fail" "Connection timed out" _ rfl).1

/-! ## Claim C2 -/

/-- C2 counterexample: `Email.send` on an invalid recipient raises
`EmailException` with a fixed generic message that does not identify the
failing address — the message does not contain the address, and the
results for two different invalid addresses are literally identical, so
the error cannot identify which address failed. -/
theorem send_invalid_email_message_anonymous_cex :
    send accEx ["bad-address-one"] (some "hi") none [] smtpAllOk =
      (.error (.emailException invalidEmailMsg), []) ∧
    containsSub "bad-address-one".toList invalidEmailMsg.toList = false ∧
    send accEx ["bad-address-one"] (some "hi") none [] smtpAllOk =
      send accEx ["bad-address-two"] (some "hi") none [] smtpAllOk := by
  exact ⟨rfl, by decide, rfl⟩

/-- C2 (amended): for every recipient list containing at least one address
that fails the email pattern, `send` raises `EmailException` (the spec's
`ValidationError`) with the fixed generic message — which does not name
the failing address — and the mail transport collaborator is never
invoked (the SMTP call trace is empty). -/
theorem send_invalid_recipient_raises_validation (acc : EmailAccount)
    (to_email : List String) (body : Option String) (template : Option String)
    (context : List (String × String)) (smtp : SmtpBehavior) (x : String)
    (hx : x ∈ to_email) (hbad : reMatchEmail x = false) :
    send acc to_email body template context smtp =
      (.error (.emailException invalidEmailMsg), []) := by
  have hne : to_email.isEmpty = false := by
    cases to_email
    · cases hx
    · rfl
  obtain ⟨v, hv⟩ : ∃ v, to_email.find? (fun e => !reMatchEmail e) = some v := by
    rw [← Option.isSome_iff_exists, List.find?_isSome]
    exact ⟨x, hx, by simp [hbad]⟩
  simp [send, buildMessage, hne, hv]

/-- C2 witness: a list with one valid and one invalid address fails with
the validation error and no SMTP call. -/
theorem send_invalid_recipient_raises_validation_witness :
    send accEx ["ok@example.com", "no-at-sign"] (some "hi") none [] smtpAllOk =
      (.error (.emailException invalidEmailMsg), []) :=
  send_invalid_recipient_raises_validation accEx _ _ _ _ smtpAllOk
    "no-at-sign" (by decide) rfl

/-! ## Claim C3 -/

/-- C3: for every recipient phone string, the `"to"` field of the payload
built by `send_message` is the phone normalised exactly as the spec says:
leading zeros stripped first, then the configured prefix prepended unless
the stripped string already starts with `'+'`.  (The hypothesis
`data_type ≠ "to"` excludes the degenerate dict-literal key collision in
which the payload's dynamic `data_type` key would overwrite `"to"`.) -/
theorem send_message_phone_normalization (w : WhatsAppCfg) (p tn : String)
    (comps : Option (List JsonVal)) (lc dt : String) (j : JsonVal)
    (hdt : dt ≠ "to") (hpay : sentPayload w p tn comps lc dt = .ok j) :
    pyGet j "to" .null = .ok (.str (specNormalizedPhone w.phone_number_pfx p)) := by
  simp only [sentPayload, _create_data] at hpay
  split at hpay
  · injection hpay with h2
    subst h2
    simp [pyGet, pyFind, hdt, specNormalizedPhone, pyLstripZeros]
  · exact Except.noConfusion hpay

/-- C3 witness: input `"0987654321"` with prefix `"+91"` normalises to
`"+91987654321"`. -/
theorem send_message_phone_normalization_witness :
    (∃ j, sentPayload waEx "0987654321" "greeting" none "en" "template" = .ok j ∧
      pyGet j "to" .null = .ok (.str "+91987654321")) ∧
    specNormalizedPhone "+91" "0987654321" = "+91987654321" := by
  refine ⟨⟨_, rfl, ?_⟩, rfl⟩
  have h := send_message_phone_normalization waEx "0987654321" "greeting" none
    "en" "template" _ (by simp) rfl
  rw [h]
  rfl

/-! ## Claim C4 -/

/-- C4: whenever the `components` argument is provided and contains an
element that is not a dict, `send_message` fails with the `ValueError`
(the spec's `ValidationError`) raised by `_create_data`, uniformly in the
HTTP outcome — so before any request is built or sent. -/
theorem send_message_bad_components_fail_before_request (w : WhatsAppCfg)
    (p tn dt lc sm fm : String) (l : List JsonVal) (x : JsonVal)
    (hx : x ∈ l) (hxd : isDict x = false) (http : HttpOutcome) :
    send_message w p tn dt (some l) lc sm fm http =
      .error (.valueError componentsErrMsg) := by
  have hne : l.isEmpty = false := by
    cases l
    · cases hx
    · rfl
  have hall : l.all isDict = false := by
    rw [List.all_eq_false]
    exact ⟨x, hx, by simp [hxd]⟩
  simp [send_message, sentPayload, _create_data, hne, hall]

/-- C4 witness: `components=["not-an-object"]` fails with the
`ValueError` regardless of the transport. -/
theorem send_message_bad_components_fail_before_request_witness :
    ((.str "not-an-object") ∈ ([.str "not-an-object"] : List JsonVal) ∧
     isDict (.str "not-an-object") = false) ∧
    send_message waEx "0987654321" "greeting" "template" (some [.str "not-an-object"])
      "en" "ok" "fail" (.transportError "never sent") =
      .error (.valueError componentsErrMsg) :=
  ⟨⟨List.mem_singleton.mpr rfl, rfl⟩,
   send_message_bad_components_fail_before_request waEx "0987654321" "greeting"
     "template" "en" "ok" "fail" [.str "not-an-object"] (.str "not-an-object")
     (List.mem_singleton.mpr rfl) rfl (.transportError "never sent")⟩

/-! ## Claim C5 -/

/-- C5: on an HTTP 200 response whose JSON object body has a non-empty
`messages` array whose first entry is an object, `send_message` returns
status true with the given success message, `request_id` equal to that
entry's `id` (Python `.get`: `null` when absent), and `message_status`
`"sent"` exactly when the entry's `message_status` field equals
`"accepted"`, else `"failed"`; on an HTTP 200 response whose `messages`
key is absent or maps to the empty array, it returns status true with the
fixed no-details message and no `request_id`. -/
theorem send_message_http200_interpretation :
    (∀ (w : WhatsAppCfg) (p tn dt : String) (comps : Option (List JsonVal))
       (lc sm fm : String) (j : JsonVal) (fs ffs : List (String × JsonVal))
       (rest : List JsonVal),
       sentPayload w p tn comps lc dt = .ok j →
       pyFind fs "messages" = some (.arr (.obj ffs :: rest)) →
       send_message w p tn dt comps lc sm fm (.response 200 (.obj fs)) =
         .ok ⟨true, .str sm, some ((pyFind ffs "id").getD .null),
              some (if isStrEq ((pyFind ffs "message_status").getD .null) "accepted"
                    then "sent" else "failed")⟩) ∧
    (∀ (w : WhatsAppCfg) (p tn dt : String) (comps : Option (List JsonVal))
       (lc sm fm : String) (j : JsonVal) (fs : List (String × JsonVal)),
       sentPayload w p tn comps lc dt = .ok j →
       (pyFind fs "messages" = none ∨ pyFind fs "messages" = some (.arr [])) →
       send_message w p tn dt comps lc sm fm (.response 200 (.obj fs)) =
         .ok ⟨true, .str noDetailsMsg, none, none⟩) := by
  constructor
  · intro w p tn dt comps lc sm fm j fs ffs rest hpay hm
    simp [send_message, hpay, tryBody, handleResponse, pyContains, hm,
          pySubscript, pyIndexZero, pyGet, pyTruthy]
  · intro w p tn dt comps lc sm fm j fs hpay hm
    rcases hm with hm | hm <;>
      simp [send_message, hpay, tryBody, handleResponse, pyContains, hm,
            pySubscript, pyIndexZero, pyGet, pyTruthy]

/-- C5 witness: the spec's example body
`{"messages":[{"id":"wamid.abc","message_status":"accepted"}]}` yields
`{status: true, message: successMessage, request_id: "wamid.abc",
message_status: "sent"}`, and a body without `messages` yields the
no-details result. -/
theorem send_message_http200_interpretation_witness :
    send_message waEx "0987654321" "greeting" "template" none "en"
      "Message sent successfully." "Failed to send message."
      (.response 200 (.obj [("messages",
        .arr [.obj [("id", .str "wamid.abc"), ("message_status", .str "accepted")]])])) =
      .ok ⟨true, .str "Message sent successfully.", some (.str "wamid.abc"), some "sent"⟩ ∧
    send_message waEx "0987654321" "greeting" "template" none "en"
      "Message sent successfully." "Failed to send message."
      (.response 200 (.obj [("ok", .bool true)])) =
      .ok ⟨true, .str noDetailsMsg, none, none⟩ := by
  constructor
  · exact send_message_http200_interpretation.1 waEx "0987654321" "greeting"
      "template" none "en" "Message sent successfully." "Failed to send message." _
      [("messages", .arr [.obj [("id", .str "wamid.abc"), ("message_status", .str "accepted")]])]
      [("id", .str "wamid.abc"), ("message_status", .str "accepted")] [] rfl rfl
  · exact send_message_http200_interpretation.2 waEx "0987654321" "greeting"
      "template" none "en" "Message sent successfully." "Failed to send message." _
      [("ok", .bool true)] rfl (Or.inl rfl)

/-! ## Claim C6 -/

/-- C6 counterexample: on a 403 response whose body's `error` field is a
*string* rather than an object, `send_message` does not return
`{status: false, message: failedMessage}` — the chained
`.get("error", {}).get("message", ...)` raises an `AttributeError`, which
the `except (RequestException, ValueError)` clause does not catch, so the
call raises instead of returning a result. -/
theorem send_message_non200_string_error_raises_cex :
    send_message waEx "0987654321" "greeting" "template" none "en"
      "Message sent successfully." "Failed to send message."
      (.response 403 (.obj [("error", .str "oops")])) =
      .error (.attributeError "object has no attribute get") := by rfl

/-- C6 (amended): for every non-200 response whose JSON object body either
lacks the `error` field or maps it to an object, `send_message` returns
status false with message equal to that object's `message` field when
present and the given failed message otherwise; when the `error` field is
present but not an object, the call raises `AttributeError` instead. -/
theorem send_message_non200_error_message :
    (∀ (w : WhatsAppCfg) (p tn dt : String) (comps : Option (List JsonVal))
       (lc sm fm : String) (j : JsonVal) (code : Nat) (fs : List (String × JsonVal)),
       sentPayload w p tn comps lc dt = .ok j →
       code ≠ 200 →
       pyFind fs "error" = none →
       send_message w p tn dt comps lc sm fm (.response code (.obj fs)) =
         .ok ⟨false, .str fm, none, none⟩) ∧
    (∀ (w : WhatsAppCfg) (p tn dt : String) (comps : Option (List JsonVal))
       (lc sm fm : String) (j : JsonVal) (code : Nat)
       (fs efs : List (String × JsonVal)),
       sentPayload w p tn comps lc dt = .ok j →
       code ≠ 200 →
       pyFind fs "error" = some (.obj efs) →
       send_message w p tn dt comps lc sm fm (.response code (.obj fs)) =
         .ok ⟨false, (pyFind efs "message").getD (.str fm), none, none⟩) := by
  constructor
  · intro w p tn dt comps lc sm fm j code fs hpay hcode hm
    simp [send_message, hpay, tryBody, handleResponse, hcode, pyGet, hm, pyFind_nil]
  · intro w p tn dt comps lc sm fm j code fs efs hpay hcode hm
    simp [send_message, hpay, tryBody, handleResponse, hcode, pyGet, hm]

/-- C6 witness: the spec's example — a 403 response with body
`{"error":{"message":"Invalid token"}}` yields
`{status: false, message: "Invalid token"}` — and a 500 response with an
empty body yields the failed message. -/
theorem send_message_non200_error_message_witness :
    send_message waEx "0987654321" "greeting" "template" none "en"
      "Message sent successfully." "Failed to send message."
      (.response 403 (.obj [("error", .obj [("message", .str "Invalid token")])])) =
      .ok ⟨false, .str "Invalid token", none, none⟩ ∧
    send_message waEx "0987654321" "greeting" "template" none "en"
      "Message sent successfully." "Failed to send message."
      (.response 500 (.obj [])) =
      .ok ⟨false, .str "Failed to send message.", none, none⟩ := by
  constructor
  · have h := send_message_non200_error_message.2 waEx "0987654321" "greeting"
      "template" none "en" "Message sent successfully." "Failed to send message."
      _ 403 [("error", .obj [("message", .str "Invalid token")])]
      [("message", .str "Invalid token")] rfl (by decide) rfl
    rw [h]
    rfl
  · exact send_message_non200_error_message.1 waEx "0987654321" "greeting"
      "template" none "en" "Message sent successfully." "Failed to send message."
      _ 500 [] rfl (by decide) rfl

/-! ## Claim C7 -/

/-- C7: a template-based `send` on an account whose environment was never
initialized (no templates directory at construction, `init_env` never
called) raises the configuration `EmailException`
("Environment not initialized...") and no other error kind, and performs
no SMTP call.  (Recipient validation runs first, so the call must carry a
non-empty list of pattern-valid recipients to reach the template check,
matching the spec's stated precondition order.) -/
theorem send_template_without_env_raises_config_error (acc : EmailAccount)
    (to_email : List String) (body : Option String) (t : String)
    (context : List (String × String)) (smtp : SmtpBehavior)
    (henv : acc.env = none) (hne : to_email ≠ [])
    (hval : ∀ e ∈ to_email, reMatchEmail e = true) :
    send acc to_email body (some t) context smtp =
      (.error (.emailException envNotInitMsg), []) := by
  have hne2 : to_email.isEmpty = false := by
    cases to_email
    · exact absurd rfl hne
    · rfl
  have hfind : to_email.find? (fun e => !reMatchEmail e) = none := by
    rw [List.find?_eq_none]
    intro x hx
    simp [hval x hx]
  simp [send, buildMessage, hne2, hfind, _get_template, henv]

/-- C7 witness: a template send on `accEx` (constructed without a
templates directory) raises the configuration error. -/
theorem send_template_without_env_raises_config_error_witness :
    send accEx ["me@example.com"] none (some "welcome.html") [] smtpAllOk =
      (.error (.emailException envNotInitMsg), []) :=
  send_template_without_env_raises_config_error accEx ["me@example.com"] none
    "welcome.html" [] smtpAllOk rfl (by decide) (by decide)

/-! ## Claim C8 -/

/-- C8 counterexample: when `login` raises, the SMTP session is *not* torn
down — `send` stops at the failed call, `quit` is never executed (the
transport trace is `[connect, starttls]`), and the raw `smtplib` exception
propagates to the caller unwrapped. -/
theorem send_smtp_failure_skips_quit_cex :
    send accEx ["me@example.com"] (some "hello") none [] smtpLoginFail =
      (.error (.smtpError "SMTPAuthenticationError: 535 bad credentials"),
       [.connect, .starttls]) ∧
    SmtpAction.quit ∉ [SmtpAction.connect, SmtpAction.starttls] := by
  exact ⟨rfl, by decide⟩

/-- C8 (amended): the five delivery calls run straight-line with no
guaranteed cleanup: `quit` is executed exactly when every call succeeds,
so on any transport or authentication failure the session is not torn
down; the failure propagates through `send` to the caller as the raw
underlying transport exception (not wrapped in any library error), with
the trace of the calls that did run. -/
theorem send_smtp_teardown_only_on_success :
    (∀ b : SmtpBehavior, SmtpAction.quit ∈ (deliver b).2 ↔ (deliver b).1 = .ok ()) ∧
    (∀ (acc : EmailAccount) (to_email : List String) (body : Option String)
       (template : Option String) (context : List (String × String))
       (smtp : SmtpBehavior) (m : MimeMessage) (e : String) (tr : List SmtpAction),
       buildMessage acc to_email body template context = .ok m →
       deliver smtp = (.error e, tr) →
       send acc to_email body template context smtp = (.error (.smtpError e), tr)) := by
  constructor
  · intro b
    obtain ⟨c, s, l, sm, q⟩ := b
    cases c <;> cases s <;> cases l <;> cases sm <;> cases q <;> simp [deliver]
  · intro acc to_email body template context smtp m e tr hb hd
    simp [send, hb, hd]

/-- C8 witness: on the all-success transport the teardown equivalence is
inhabited, and a login failure propagates unwrapped with its partial
trace. -/
theorem send_smtp_teardown_only_on_success_witness :
    (SmtpAction.quit ∈ (deliver smtpAllOk).2 ↔ (deliver smtpAllOk).1 = .ok ()) ∧
    send accEx ["you@example.org"] (some "hello") none [] smtpLoginFail =
      (.error (.smtpError "SMTPAuthenticationError: 535 bad credentials"),
       [.connect, .starttls]) :=
  ⟨send_smtp_teardown_only_on_success.1 smtpAllOk,
   send_smtp_teardown_only_on_success.2 accEx ["you@example.org"] (some "hello")
     none [] smtpLoginFail _ _ _ rfl rfl⟩

/-! ## Claim C9 -/

/-- C9: for every valid non-empty recipient list, `template=None` and a
non-null `body`, the message `Email.send` assembles has `From` equal to
the sender address, `To` the comma-joined recipient list, and a single
content part tagged `plain` whose content is `body` exactly. -/
theorem send_plain_body_message (acc : EmailAccount) (to_email : List String)
    (b : String) (context : List (String × String)) (hne : to_email ≠ [])
    (hval : ∀ e ∈ to_email, reMatchEmail e = true) :
    buildMessage acc to_email (some b) none context =
      .ok ⟨acc.from_email, String.intercalate ", " to_email, [("plain", b)]⟩ := by
  have hne2 : to_email.isEmpty = false := by
    cases to_email
    · exact absurd rfl hne
    · rfl
  have hfind : to_email.find? (fun e => !reMatchEmail e) = none := by
    rw [List.find?_eq_none]
    intro x hx
    simp [hval x hx]
  simp [buildMessage, hne2, hfind]

/-- C9 witness: two valid recipients and a plain body assemble to the
expected message. -/
theorem send_plain_body_message_witness :
    buildMessage accEx ["a@b.co", "c@d.org"] (some "Hello there") none [] =
      .ok ⟨"me@example.com", "a@b.co, c@d.org", [("plain", "Hello there")]⟩ := by
  have h := send_plain_body_message accEx ["a@b.co", "c@d.org"] "Hello there" []
    (by decide) (by decide)
  rw [h]
  rfl

/-! ## Claim C10 -/

/-- C10: whenever an HTTP response is received, its body parses, and
`send_message` returns a result, the result's status flag is true exactly
when the HTTP status code is 200; in particular the result can combine
status true with `message_status = "failed"` when the provider's
per-message acceptance flag is not `"accepted"`. -/
theorem send_message_status_iff_http200 :
    (∀ (w : WhatsAppCfg) (p tn dt : String) (comps : Option (List JsonVal))
       (lc sm fm : String) (j : JsonVal) (code : Nat) (body : JsonVal) (r : WaResult),
       sentPayload w p tn comps lc dt = .ok j →
       send_message w p tn dt comps lc sm fm (.response code body) = .ok r →
       (r.status = true ↔ code = 200)) ∧
    (send_message waEx "5" "t" "template" none "en" "ok" "fail"
       (.response 200 (.obj [("messages", .arr [.obj [("id", .str "wamid.x"),
          ("message_status", .str "declined")]])])) =
       .ok ⟨true, .str "ok", some (.str "wamid.x"), some "failed"⟩) := by
  constructor
  · intro w p tn dt comps lc sm fm j code body r hpay h
    simp only [send_message, hpay, tryBody] at h
    cases hh : handleResponse code body sm fm with
    | ok r2 =>
        rw [hh] at h
        simp only [] at h
        injection h with h2
        subst h2
        exact handleResponse_ok_status code body sm fm _ hh
    | error e =>
        rw [hh] at h
        cases e with
        | valueError m => exact absurd hh (handleResponse_no_vE code body sm fm m)
        | typeError m => exact Except.noConfusion h
        | keyError m => exact Except.noConfusion h
        | indexError m => exact Except.noConfusion h
        | attributeError m => exact Except.noConfusion h
  · rfl

/-- C10 witness: a 403 response with a JSON body produces a returned
result with status false, and the equivalence instantiates on it. -/
theorem send_message_status_iff_http200_witness :
    (send_message waEx "5" "t" "template" none "en" "ok" "fail"
      (.response 403 (.obj [])) = .ok ⟨false, .str "fail", none, none⟩) ∧
    ((false = true) ↔ (403 = 200)) :=
  ⟨rfl, send_message_status_iff_http200.1 waEx "5" "t" "template" none "en"
    "ok" "fail" _ 403 (.obj []) _ rfl rfl⟩
